import Mathlib

/-!
Verification of the transport-bot trip lifecycle, pricing and review logic.

The definitions below are a shallow embedding of the repository's Python
sources (`handlers.py`, `utils.py`, `database.py`, `bot.py`).  Each handler
that mutates the database is embedded as a pure function on an explicit
state record; SQL statements become field updates, and Python truthiness
checks are translated literally (in particular `0`, `""` and `None` are
falsy).  Machine integers of the source are modelled as `Int` (Python has
arbitrary-precision integers, so no wraparound is needed).
-/

set_option linter.unusedVariables false

namespace TransportBot

/-- Trip status values used by the handlers (the `status` column of the
`trips` table). -/
inductive TripStatus
  | searching
  | accepted
  | started
  | completed
  | cancelled
deriving DecidableEq, Repr

/-- One row of the `trips` table (`database.py` lines 79-102), restricted to
the columns the handlers read or write.  `driver_id`, `final_price`,
`cancelled_by` and `cancel_reason` are nullable columns, hence `Option`. -/
structure Trip where
  passenger_id : Nat
  driver_id : Option Nat := none
  from_city : String
  to_city : String
  price : Int
  status : TripStatus := .searching
  cancelled_by : Option Nat := none
  cancel_reason : Option String := none
  waiting_minutes : Int := 0
  waiting_charge : Int := 0
  final_price : Option Int := none
deriving DecidableEq, Repr

/-- Database state relevant to one trip: the trip row itself and the
`trips_count` column of the `users` table, as a map from user id. -/
structure DBState where
  trip : Trip
  trips_count : Nat → Nat

/-- Benign error outcomes of the trip handlers.  Each constructor stands for
one of the error messages the corresponding handler shows without mutating
the database. -/
inductive TripErr
  | unavailable
  | notVerified
  | cannotStart
  | cannotComplete
  | alreadyCompleted
  | invalidCancel
deriving DecidableEq, Repr

/-- `utils.calculate_waiting_charge` (utils.py lines 87-96), translated
branch by branch. -/
def calculate_waiting_charge (minutes : Int) : Int :=
  if minutes ≤ 2 then 0
  else if minutes ≤ 5 then (minutes - 2) * 3
  else if minutes ≤ 7 then 3 * 3 + (minutes - 5) * 4
  else 3 * 3 + 2 * 4 + (minutes - 7) * 5

/-- Creation of a trip row by `trip_confirm` (handlers.py lines 422-428):
INSERT with the given passenger, route and price, status `searching`, all
nullable columns NULL and the waiting columns at their defaults. -/
def create_trip (passenger : Nat) (from_city to_city : String) (price : Int) : Trip :=
  { passenger_id := passenger, from_city := from_city, to_city := to_city, price := price }

/-- `handlers.accept_trip` (handlers.py lines 492-533) as a sequential
state transformer.  The handler first SELECTs the trip with
`status = 'searching'` and fails benignly when no row matches; it then
checks the driver row (`if not driver or not driver['verified']`, so any
nonzero `verified` value passes); finally it runs
`UPDATE trips SET driver_id = ?, status = 'accepted' WHERE trip_id = ?` —
note that this UPDATE carries no status condition. -/
def accept_trip (st : DBState) (driver_verified : Int) (driver : Nat) :
    Except TripErr Unit × DBState :=
  if st.trip.status = .searching then
    if driver_verified ≠ 0 then
      (.ok (), { st with trip := { st.trip with driver_id := some driver, status := .accepted } })
    else (.error .notVerified, st)
  else (.error .unavailable, st)

/-- `handlers.start_trip` (handlers.py lines 585-614).  The handler SELECTs
the trip with `status = 'accepted'` and otherwise fails benignly; on success
it sets `status = 'started'`.  The acting user id is read from the callback
but is used only to choose whom to notify — the handler performs no
authorization check on the actor. -/
def start_trip (st : DBState) (actor : Nat) : Except TripErr Unit × DBState :=
  if st.trip.status = .accepted then
    (.ok (), { st with trip := { st.trip with status := .started } })
  else (.error .cannotStart, st)

/-- Pointwise increment of the `trips_count` map, one
`UPDATE users SET trips_count = trips_count + 1 WHERE user_id = ?`. -/
def bump_count (counts : Nat → Nat) (u : Nat) : Nat → Nat :=
  fun v => if v = u then counts v + 1 else counts v

/-- The same UPDATE issued with a possibly NULL user id (a NULL id matches
no row). -/
def bump_count_opt (counts : Nat → Nat) (u : Option Nat) : Nat → Nat :=
  match u with
  | some x => bump_count counts x
  | none => counts

/-- `handlers.complete_trip` (handlers.py lines 706-756).  The handler
SELECTs the trip with `status = 'started'`; when no row matches it re-reads
the trip and shows either an "already completed" or a "cannot complete"
message, mutating nothing.  On success it computes
`final_price = price + (waiting_charge or 0)`, sets `status = 'completed'`
and `final_price`, and then increments `trips_count` for
`[passenger_id, driver_id]`. -/
def complete_trip (st : DBState) : Except TripErr Unit × DBState :=
  if st.trip.status = .started then
    let fp := st.trip.price + st.trip.waiting_charge
    (.ok (),
      { trip := { st.trip with status := .completed, final_price := some fp },
        trips_count := bump_count_opt (bump_count st.trips_count st.trip.passenger_id)
          st.trip.driver_id })
  else if st.trip.status = .completed then (.error .alreadyCompleted, st)
  else (.error .cannotComplete, st)

/-- Modelled from the spec: the cancel handler is missing from src — the
passenger UI renders a `cancel_trip_…` button (handlers.py line 438) but
`handlers.py` defines no cancel function and `bot.py` registers no callback
for it.  Per spec §4.1, `cancel(trip_id, actor, reason)` is allowed from
`searching`, `accepted` and `started`, transitions the trip to `cancelled`
and records the cancelling actor and the reason on the trip record. -/
def cancel_trip (st : DBState) (actor : Nat) (reason : String) :
    Except TripErr Unit × DBState :=
  if st.trip.status = .searching ∨ st.trip.status = .accepted ∨ st.trip.status = .started then
    (.ok (),
      { st with trip :=
          { st.trip with
            status := .cancelled
            cancelled_by := some actor
            cancel_reason := some reason } })
  else (.error .invalidCancel, st)

/-- `handlers.stop_waiting` (handlers.py lines 669-704): once a waiting
start instant is on record, the handler stores the elapsed minutes and
`calculate_waiting_charge(minutes)` on the trip row, with no status check. -/
def stop_waiting_update (st : DBState) (minutes : Int) : DBState :=
  { st with trip :=
      { st.trip with
        waiting_minutes := minutes
        waiting_charge := calculate_waiting_charge minutes } }

/-- One database-mutating trip operation, for invariant preservation
statements. -/
inductive TripOp
  | accept (driver_verified : Int) (driver : Nat)
  | start (actor : Nat)
  | complete
  | cancel (actor : Nat) (reason : String)
  | stopWaiting (minutes : Int)

/-- Resulting state of one trip operation (handlers keep the row unchanged
on their error paths). -/
def applyOp (op : TripOp) (st : DBState) : DBState :=
  match op with
  | .accept v d => (accept_trip st v d).2
  | .start a => (start_trip st a).2
  | .complete => (complete_trip st).2
  | .cancel a r => (cancel_trip st a r).2
  | .stopWaiting m => (stop_waiting_update st m)

/-- Spec §3 invariant on a trip row: the final price is non-null iff the
trip is completed. -/
def finalPriceInv (t : Trip) : Prop :=
  t.final_price.isSome ↔ t.status = .completed

instance (t : Trip) : Decidable (finalPriceInv t) := by
  unfold finalPriceInv
  infer_instance

/-! ### Concurrent accept attempts

`accept_trip` issues two separate SQL statements: a SELECT that checks
`status = 'searching'` and an UPDATE that carries no status condition.  Each
statement is individually atomic in SQLite, but other accept attempts may
interleave between the two.  `RaceState` tracks the trip row together with
the per-attempt progress; `race_read` is the SELECT phase (the verified
check is folded in, all racing drivers being verified) and `race_write` the
UPDATE phase of one attempt. -/

/-- Shared state of N interleaved accept attempts on one trip:
`checked i` records that attempt `i` passed its `status = 'searching'`
SELECT, and `outcome i` is `none` while pending, `some true` once the
attempt reported success, `some false` once it showed the benign
"no longer available" message. -/
structure RaceState where
  status : TripStatus
  driver_id : Option Nat
  checked : List Bool
  outcome : List (Option Bool)
deriving DecidableEq, Repr

/-- SELECT phase of attempt `i` (handlers.py lines 501-515): if the trip is
still `searching` the attempt proceeds, otherwise it ends with the benign
failure outcome. -/
def race_read (st : RaceState) (i : Nat) : RaceState :=
  if st.status = .searching then { st with checked := st.checked.set i true }
  else { st with outcome := st.outcome.set i (some false) }

/-- UPDATE phase of attempt `i` (handlers.py lines 528-533):
`UPDATE trips SET driver_id = ?, status = 'accepted' WHERE trip_id = ?` —
no status condition, so once the attempt passed its SELECT the write always
lands and the attempt reports success. -/
def race_write (st : RaceState) (drivers : List Nat) (i : Nat) : RaceState :=
  if st.checked.getD i false then
    { st with
      status := .accepted
      driver_id := some (drivers.getD i 0)
      outcome := st.outcome.set i (some true) }
  else st

/-- One interleaving step: which attempt performs which phase. -/
inductive RaceStep
  | read (i : Nat)
  | write (i : Nat)

/-- Execute a schedule of interleaved phases. -/
def race_run (drivers : List Nat) (steps : List RaceStep) (st : RaceState) : RaceState :=
  steps.foldl
    (fun s step =>
      match step with
      | .read i => race_read s i
      | .write i => race_write s drivers i)
    st

/-- Two pending accept attempts on a trip in `searching`. -/
def race_init : RaceState :=
  { status := .searching, driver_id := none, checked := [false, false],
    outcome := [none, none] }

/-- The racy interleaving: both attempts pass their SELECT before either
UPDATE runs. -/
def race_schedule : List RaceStep := [.read 0, .read 1, .write 0, .write 1]

/-! ### Reviews -/

/-- One row of the `reviews` table (database.py lines 105-118).  The table
declares an autoincrement primary key and a 1..5 CHECK on the rating, but no
uniqueness constraint on (trip_id, from_user). -/
structure Review where
  trip_id : String
  from_user : Nat
  to_user : Option Nat
  rating : Int
  comment : String
deriving DecidableEq, Repr

/-- `handlers.save_review` (handlers.py lines 856-899).  The function guards
only on the presence of the conversation-context fields and of the trip row
(Python truthiness, so an empty trip id or a zero rating count as missing).
It checks neither that the trip is completed, nor that the rater is a party
to it, nor whether a review by this rater for this trip already exists: the
INSERT is unconditional, with the ratee chosen as the bound driver when the
rater equals the passenger and as the passenger otherwise. -/
def save_review (trip : Option Trip) (ctx_trip_id : Option String)
    (ctx_rating : Option Int) (reviews : List Review) (user_id : Nat)
    (comment : String) : List Review :=
  match ctx_trip_id, ctx_rating with
  | some tid, some rating =>
    if tid = "" ∨ rating = 0 then reviews
    else
      match trip with
      | some t =>
        reviews ++
          [{ trip_id := tid
             from_user := user_id
             to_user := if user_id = t.passenger_id then t.driver_id else some t.passenger_id
             rating := rating
             comment := comment }]
      | none => reviews
  | _, _ => reviews

/-- Rolling-rating recompute run after the insert (handlers.py lines
886-895): `SELECT AVG(rating) FROM reviews WHERE to_user = ?`, written into
`users.rating` (0 stands for SQL NULL when no review exists). -/
def avg_rating (reviews : List Review) (u : Nat) : Rat :=
  let rs := (reviews.filter (fun r => r.to_user == some u)).map (fun r => (r.rating : Rat))
  if rs.length = 0 then 0 else rs.sum / rs.length

/-! ### Driver registry -/

/-- One row of the `drivers` table (database.py lines 59-76), restricted to
the columns the claims touch.  `verified` is an Int column: 0 pending,
1 verified, -1 rejected. -/
structure DriverRec where
  user_id : Nat
  verified : Int := 0
  online_status : Int := 0
  experience : Int := 0
deriving DecidableEq, Repr

/-- INSERT of `handlers.driver_experience` (handlers.py lines 1016-1025):
the new driver row carries verified = 0 and online_status at its column
default 0. -/
def driver_experience_register (uid : Nat) (exp : Int) : DriverRec :=
  { user_id := uid, experience := exp }

/-- `handlers.admin_verify_driver` (handlers.py lines 1192-1195):
`UPDATE drivers SET verified = 1 ... WHERE user_id = ?`. -/
def admin_verify_driver (d : DriverRec) : DriverRec :=
  { d with verified := 1 }

/-- `handlers.admin_reject_driver` (handlers.py lines 1233-1236):
`UPDATE drivers SET verified = -1 ... WHERE user_id = ?` — the
online_status column is not touched, and the handler does not check the
driver's current verification state. -/
def admin_reject_driver (d : DriverRec) : DriverRec :=
  { d with verified := -1 }

/-- Modelled from the spec: the driver_online toggle handler is registered
in bot.py (line 116) but no implementation exists under src.  Per spec §3
the online flag may be set only while verification = verified. -/
def driver_online (d : DriverRec) : DriverRec :=
  if d.verified = 1 then { d with online_status := 1 } else d

/-- Modelled from the spec: the driver_offline toggle handler is registered
in bot.py (line 117) but no implementation exists under src; it clears the
online flag. -/
def driver_offline (d : DriverRec) : DriverRec :=
  { d with online_status := 0 }

/-- Spec §3 invariant on a driver row: the online flag is false whenever the
verification state is not `verified`. -/
def onlineInv (d : DriverRec) : Prop :=
  d.verified ≠ 1 → d.online_status = 0

/-! ### Pricing -/

/-- The DISTANCES configuration table, `{(city, city): km}` per spec §6;
config.py is not under src, so the table is a parameter. -/
abbrev DistTable := List ((String × String) × Int)

/-- One CAR_CLASSES entry, `{per_km_rate, min_price}` per spec §6; the code
reads the per-km rate from the key named base_price. -/
structure CarClassInfo where
  base_price : Int
  min_price : Int
deriving DecidableEq, Repr

/-- The CAR_CLASSES configuration table, keyed by class name. -/
abbrev ClassTable := List (String × CarClassInfo)

/-- dict.get on the distance table. -/
def dist_get (tbl : DistTable) (k : String × String) : Option Int :=
  (tbl.find? (fun e => e.1 == k)).map (fun e => e.2)

/-- dict.get on the class table. -/
def class_get (tbl : ClassTable) (c : String) : Option CarClassInfo :=
  (tbl.find? (fun e => e.1 == c)).map (fun e => e.2)

/-- Distance resolution of `utils.calculate_price` (utils.py lines 66-69):
look up (from, to); Python `if not distance` treats both a missing key and a
stored zero as absent, falling back to (to, from) with default 400. -/
def resolve_distance (tbl : DistTable) (from_city to_city : String) : Int :=
  match dist_get tbl (from_city, to_city) with
  | some d => if d = 0 then (dist_get tbl (to_city, from_city)).getD 400 else d
  | none => (dist_get tbl (to_city, from_city)).getD 400

/-- Python `round(p / 50)` under exact arithmetic: nearest integer with ties
to even (Python 3 rounds halves to even). -/
def round_half_even_div50 (p : Int) : Int :=
  let q := Int.fdiv p 50
  let r := p - 50 * q
  if r < 25 then q
  else if 25 < r then q + 1
  else if q % 2 = 0 then q else q + 1

/-- `utils.calculate_price` (utils.py lines 63-85), with the configuration
tables as parameters (config.py is not under src; shapes per spec §6).
Python evaluates the dict.get default `CAR_CLASSES['economy']` eagerly, so a
missing economy entry raises and the except branch returns (500, 400).
Otherwise price = 60 + distance * per-km rate, rounded to the nearest 50 and
floored at the class minimum. -/
def calculate_price (dist : DistTable) (classes : ClassTable)
    (from_city to_city : String) (car_class : String) : Int × Int :=
  match class_get classes "economy" with
  | none => (500, 400)
  | some eco =>
    let distance := resolve_distance dist from_city to_city
    let info := (class_get classes car_class).getD eco
    let price := 60 + distance * info.base_price
    (max info.min_price (round_half_even_div50 price * 50), distance)

/-- A city pair present in the distance table in either order, with
consistent nonzero distances: the shape of the spec's symmetric (undirected)
distance table of km values (spec §4.3). -/
def undirected_at (tbl : DistTable) (a b : String) : Bool :=
  match dist_get tbl (a, b), dist_get tbl (b, a) with
  | some d1, some d2 => d1 == d2 && d1 != 0
  | some d, none => d != 0
  | none, some d => d != 0
  | none, none => false

/-! ### Phone display -/

/-- `utils.format_phone` (utils.py lines 49-54): strip whitespace, dashes
and parentheses; an 11-character result is rendered as +7 (XXX) XXX-XX-XX,
anything else is returned as typed. -/
def format_phone (phone : String) : String :=
  let cleaned := phone.toList.filter
    (fun c => !(c.isWhitespace || c == '-' || c == '(' || c == ')'))
  if cleaned.length = 11 then
    "+7 (" ++ String.mk ((cleaned.drop 1).take 3) ++ ") "
      ++ String.mk ((cleaned.drop 4).take 3) ++ "-"
      ++ String.mk ((cleaned.drop 7).take 2) ++ "-"
      ++ String.mk ((cleaned.drop 9).take 2)
  else phone

/-- `utils.format_phone_for_display` (utils.py lines 98-114).  `decrypt`
stands for utils.decrypt_phone (an external crypto call returning "" on
failure) and `trip` for the row fetched by trip id — `none` when no trip id
or db handle was supplied or no row matched.  An empty encrypted value
short-circuits to the "not specified" message for every requester; a party
(requester id equal to the trip's passenger id or non-null driver id) gets
the decrypted, formatted number; everyone else gets the fixed hidden
message. -/
def format_phone_for_display (decrypt : String → String) (trip : Option Trip)
    (encrypted : String) (user_id : Nat) : String :=
  if encrypted = "" then "❌ Не указан"
  else
    match trip with
    | some t =>
      if user_id = t.passenger_id ∨ some user_id = t.driver_id then
        let phone := decrypt encrypted
        if phone = "" then "❌ Ошибка расшифровки" else format_phone phone
      else "🔒 Скрыт (доступен после подтверждения)"
    | none => "🔒 Скрыт (доступен после подтверждения)"

/-! ### Concrete states used by the closed theorems and witnesses -/

/-- A completed trip row between passenger 10 and driver 20. -/
def doneTrip : Trip :=
  { passenger_id := 10
    driver_id := some 20
    from_city := "A"
    to_city := "B"
    price := 500
    status := .completed
    final_price := some 500 }

/-- A completed trip: wrong prior status for all three transitions. -/
def doneState : DBState :=
  { trip := doneTrip, trips_count := fun _ => 0 }

/-- An accepted trip row between passenger 10 and driver 20. -/
def acceptedTrip : Trip :=
  { passenger_id := 10
    driver_id := some 20
    from_city := "A"
    to_city := "B"
    price := 500
    status := .accepted }

/-- An accepted trip between passenger 10 and driver 20. -/
def acceptedState : DBState :=
  { trip := acceptedTrip, trips_count := fun _ => 0 }

/-- A started trip between passenger 10 and driver 20 with 6 recorded
waiting minutes. -/
def startedState : DBState :=
  stop_waiting_update
    { trip := { acceptedTrip with status := .started }, trips_count := fun _ => 0 } 6

/-- A trip still in `searching`, for the review and cancel scenarios. -/
def searchingTrip : Trip :=
  { passenger_id := 10
    driver_id := some 20
    from_city := "A"
    to_city := "B"
    price := 500 }

/-- A pre-existing review by user 99 for trip "T", addressed to user 10. -/
def priorReviews : List Review :=
  [{ trip_id := "T", from_user := 99, to_user := some 10, rating := 1, comment := "" }]

/-- A small undirected distance table and class table for the pricing
witness. -/
def witnessDistances : DistTable := [(("A", "B"), 100)]

/-- Economy-only class table for the pricing witness. -/
def witnessClasses : ClassTable := [("economy", { base_price := 10, min_price := 500 })]

/-- A completed trip row for the phone-display scenarios. -/
def phoneTrip : Trip := doneTrip

end TransportBot

namespace TransportBot

/-- C2: the waiting-surcharge function returns 0, 0, 3, 9, 17 and 32 at
0, 2, 3, 5, 7 and 10 minutes respectively, and on every integer number of
minutes it follows the continuous tier accumulation: 0 up to 2 minutes,
3 per minute up to 5, then 9 plus 4 per minute up to 7, then 17 plus 5 per
minute beyond 7 — no double-charge and no gap at the boundaries. -/
theorem waiting_charge_tiers :
    calculate_waiting_charge 0 = 0 ∧
    calculate_waiting_charge 2 = 0 ∧
    calculate_waiting_charge 3 = 3 ∧
    calculate_waiting_charge 5 = 9 ∧
    calculate_waiting_charge 7 = 17 ∧
    calculate_waiting_charge 10 = 32 ∧
    (∀ m : Int,
      (m ≤ 2 → calculate_waiting_charge m = 0) ∧
      (2 < m → m ≤ 5 → calculate_waiting_charge m = 3 * (m - 2)) ∧
      (5 < m → m ≤ 7 → calculate_waiting_charge m = 9 + 4 * (m - 5)) ∧
      (7 < m → calculate_waiting_charge m = 17 + 5 * (m - 7))) := by
  refine ⟨by decide, by decide, by decide, by decide, by decide, by decide, ?_⟩
  intro m
  refine ⟨?_, ?_, ?_, ?_⟩
  · intro h
    simp [calculate_waiting_charge, h]
  · intro h1 h2
    rw [calculate_waiting_charge, if_neg (by omega), if_pos h2]
    ring
  · intro h1 h2
    rw [calculate_waiting_charge, if_neg (by omega), if_neg (by omega), if_pos h2]
    ring
  · intro h1
    rw [calculate_waiting_charge, if_neg (by omega), if_neg (by omega), if_neg (by omega)]
    ring

/-- Witness for C2: the tier formula of the theorem evaluated at the
concrete input 4 minutes. -/
theorem waiting_charge_tiers_witness : calculate_waiting_charge 4 = 3 * (4 - 2) :=
  (waiting_charge_tiers.2.2.2.2.2.2 4).2.1 (by decide) (by decide)

/-- C1, refuted on the code: the UPDATE in accept_trip carries no
`status = 'searching'` condition, so in the interleaving where verified
drivers 1 and 2 both pass their SELECT before either UPDATE runs, BOTH
attempts report success (no failure outcome for a loser), and the trip ends
accepted and bound to driver 2, the later writer — not exactly one success
out of N = 2. -/
theorem accept_race_not_exclusive :
    (race_run [1, 2] race_schedule race_init).outcome = [some true, some true] ∧
    (race_run [1, 2] race_schedule race_init).status = .accepted ∧
    (race_run [1, 2] race_schedule race_init).driver_id = some 2 ∧
    ((race_run [1, 2] race_schedule race_init).outcome.countP
      (fun o => o == some true)) ≠ 1 := by
  decide

/-- C4: each of accept, start and complete, attempted while the trip is not
in that operation's required prior status, returns a benign error outcome
and leaves the database state — hence every field of the trip record —
unchanged. -/
theorem wrong_status_benign_no_mutation (st : DBState) (v : Int) (d a : Nat) :
    (st.trip.status ≠ .searching →
      accept_trip st v d = (.error .unavailable, st)) ∧
    (st.trip.status ≠ .accepted →
      start_trip st a = (.error .cannotStart, st)) ∧
    (st.trip.status ≠ .started →
      (∃ e, (complete_trip st).1 = .error e) ∧ (complete_trip st).2 = st) := by
  refine ⟨?_, ?_, ?_⟩
  · intro h
    simp [accept_trip, h]
  · intro h
    simp [start_trip, h]
  · intro h
    by_cases h2 : st.trip.status = .completed
    · exact ⟨⟨.alreadyCompleted, by simp [complete_trip, h, h2]⟩, by simp [complete_trip, h, h2]⟩
    · exact ⟨⟨.cannotComplete, by simp [complete_trip, h, h2]⟩, by simp [complete_trip, h, h2]⟩

/-- Witness for C4: the three wrong-status refusals evaluated on a concrete
completed trip. -/
theorem wrong_status_benign_no_mutation_witness :
    accept_trip doneState 1 2 = (.error .unavailable, doneState) ∧
    start_trip doneState 3 = (.error .cannotStart, doneState) ∧
    ((∃ e, (complete_trip doneState).1 = .error e) ∧ (complete_trip doneState).2 = doneState) :=
  ⟨(wrong_status_benign_no_mutation doneState 1 2 3).1 (by decide),
   (wrong_status_benign_no_mutation doneState 1 2 3).2.1 (by decide),
   (wrong_status_benign_no_mutation doneState 1 2 3).2.2 (by decide)⟩

/-- C5, refuted on the code: save_review performs none of the three
rejections.  The trip is still `searching` (not completed), rater 99 is
neither the passenger (10) nor the bound driver (20), and a review by 99 for
trip "T" already exists — yet the submission is inserted, growing the review
table from 1 to 2 rows, and the ratee's rolling rating moves from 1 to 3. -/
theorem save_review_no_rejection :
    (save_review (some searchingTrip) (some "T") (some 5) priorReviews 99 "").length = 2 ∧
    avg_rating priorReviews 10 = 1 ∧
    avg_rating (save_review (some searchingTrip) (some "T") (some 5) priorReviews 99 "") 10 = 3 := by
  have hsr : save_review (some searchingTrip) (some "T") (some 5) priorReviews 99 "" =
      priorReviews ++
        [{ trip_id := "T", from_user := 99, to_user := some 10, rating := 5, comment := "" }] := rfl
  refine ⟨by rw [hsr]; decide, ?_, ?_⟩
  · norm_num [avg_rating, priorReviews]
  · rw [hsr]
    norm_num [avg_rating, priorReviews]

/-- C6, refuted on the code: start_trip performs no authorization check on
the actor.  User 99, who is neither the passenger (10) nor the bound driver
(20) of the accepted trip, successfully starts it — the call returns success
and the trip transitions to `started` instead of failing with a generic
refusal and leaving the record unchanged. -/
theorem start_trip_no_auth_check :
    (start_trip acceptedState 99).1 = .ok () ∧
    (start_trip acceptedState 99).2.trip.status = .started := by
  exact ⟨rfl, rfl⟩

/-- C7, refuted on the code: register driver 20 (pending, offline), verify,
toggle online, then reject through a stale admin button.  admin_reject_driver
sets verified = -1 but never clears online_status, leaving an online,
non-verified driver — the invariant fails. -/
theorem reject_driver_breaks_online_invariant :
    (admin_reject_driver (driver_online (admin_verify_driver
      (driver_experience_register 20 5)))).verified = -1 ∧
    (admin_reject_driver (driver_online (admin_verify_driver
      (driver_experience_register 20 5)))).online_status = 1 ∧
    ¬ onlineInv (admin_reject_driver (driver_online (admin_verify_driver
      (driver_experience_register 20 5)))) := by
  refine ⟨rfl, rfl, ?_⟩
  intro hinv
  exact absurd (hinv (by decide)) (by decide)

/-- C3: completing a started trip succeeds, sets the final price to exactly
base price plus waiting surcharge, transitions the trip to `completed`, and
increments the completed-trip counts of both the passenger and the bound
driver; the waiting surcharge for 6 minutes is 13; and the invariant "final
price is non-null iff status is completed" holds at creation and is
preserved by every operation. -/
theorem complete_trip_correct :
    (∀ st d, st.trip.status = .started → st.trip.driver_id = some d →
      d ≠ st.trip.passenger_id →
      (complete_trip st).1 = .ok () ∧
      (complete_trip st).2.trip.status = .completed ∧
      (complete_trip st).2.trip.final_price = some (st.trip.price + st.trip.waiting_charge) ∧
      (complete_trip st).2.trips_count st.trip.passenger_id
        = st.trips_count st.trip.passenger_id + 1 ∧
      (complete_trip st).2.trips_count d = st.trips_count d + 1) ∧
    calculate_waiting_charge 6 = 13 ∧
    (∀ p f t pr, finalPriceInv (create_trip p f t pr)) ∧
    (∀ op st, finalPriceInv st.trip → finalPriceInv (applyOp op st).trip) := by
  refine ⟨?_, by decide, ?_, ?_⟩
  · intro st d h1 h2 h3
    have h4 : st.trip.passenger_id ≠ d := Ne.symm h3
    refine ⟨by simp [complete_trip, h1], by simp [complete_trip, h1],
      by simp [complete_trip, h1], ?_, ?_⟩
    · simp [complete_trip, h1, h2, bump_count_opt, bump_count, h4]
    · simp [complete_trip, h1, h2, bump_count_opt, bump_count, h3]
  · intro p f t pr
    simp [create_trip, finalPriceInv]
  · intro op st h
    cases op with
    | accept v dr =>
      by_cases h1 : st.trip.status = .searching
      · by_cases h2 : v = 0
        · simp [applyOp, accept_trip, h1, h2, h]
        · simp_all [applyOp, accept_trip, finalPriceInv]
      · simp [applyOp, accept_trip, h1, h]
    | start a =>
      by_cases h1 : st.trip.status = .accepted
      · simp_all [applyOp, start_trip, finalPriceInv]
      · simp [applyOp, start_trip, h1, h]
    | complete =>
      by_cases h1 : st.trip.status = .started
      · simp [applyOp, complete_trip, h1, finalPriceInv]
      · by_cases h2 : st.trip.status = .completed <;>
          simp [applyOp, complete_trip, h1, h2, h]
    | cancel a r =>
      by_cases h1 : st.trip.status = .searching ∨ st.trip.status = .accepted ∨
          st.trip.status = .started
      · have h2 : st.trip.status ≠ .completed := by
          rcases h1 with h1 | h1 | h1 <;> simp [h1]
        simp_all [applyOp, cancel_trip, finalPriceInv]
      · simp [applyOp, cancel_trip, h1, h]
    | stopWaiting m =>
      simp [applyOp, stop_waiting_update, finalPriceInv] at h ⊢
      exact h

/-- Witness for C3: completing the concrete started trip with price 500 and
6 recorded waiting minutes (surcharge 13) bumps both parties' counts and
yields final price 513. -/
theorem complete_trip_correct_witness :
    ((complete_trip startedState).1 = .ok () ∧
      (complete_trip startedState).2.trip.status = .completed ∧
      (complete_trip startedState).2.trip.final_price =
        some (startedState.trip.price + startedState.trip.waiting_charge) ∧
      (complete_trip startedState).2.trips_count startedState.trip.passenger_id
        = startedState.trips_count startedState.trip.passenger_id + 1 ∧
      (complete_trip startedState).2.trips_count 20 = startedState.trips_count 20 + 1) ∧
    (complete_trip startedState).2.trip.final_price = some 513 :=
  ⟨complete_trip_correct.1 startedState 20 (by decide) (by decide) (by decide), by decide⟩

/-- C9 (cancel modelled from the spec, the handler being absent from src):
from each of `searching`, `accepted` and `started`, cancel succeeds,
transitions the trip to `cancelled`, and records the cancelling actor and
the reason on the trip record. -/
theorem cancel_trip_available (st : DBState) (actor : Nat) (reason : String)
    (h : st.trip.status = .searching ∨ st.trip.status = .accepted ∨ st.trip.status = .started) :
    (cancel_trip st actor reason).1 = .ok () ∧
    (cancel_trip st actor reason).2.trip.status = .cancelled ∧
    (cancel_trip st actor reason).2.trip.cancelled_by = some actor ∧
    (cancel_trip st actor reason).2.trip.cancel_reason = some reason := by
  simp [cancel_trip, h]

/-- Witness for C9: cancelling a concrete accepted trip as actor 7. -/
theorem cancel_trip_available_witness :
    (cancel_trip acceptedState 7 "plans changed").1 = .ok () ∧
    (cancel_trip acceptedState 7 "plans changed").2.trip.status = .cancelled ∧
    (cancel_trip acceptedState 7 "plans changed").2.trip.cancelled_by = some 7 ∧
    (cancel_trip acceptedState 7 "plans changed").2.trip.cancel_reason = some "plans changed" :=
  cancel_trip_available acceptedState 7 "plans changed" (Or.inr (Or.inl rfl))

/-- C8: for every pair of cities present in the (undirected, nonzero-km)
distance table in either order and every vehicle class, calculate_price is
symmetric in origin and destination, and it is deterministic — identical
inputs against the same configuration tables give the identical
(price, distance) result. -/
theorem calculate_price_symm_det (tbl : DistTable) (classes : ClassTable)
    (a b c : String) (h : undirected_at tbl a b = true) :
    calculate_price tbl classes a b c = calculate_price tbl classes b a c ∧
    calculate_price tbl classes a b c = calculate_price tbl classes a b c := by
  have key : resolve_distance tbl a b = resolve_distance tbl b a := by
    unfold undirected_at at h
    unfold resolve_distance
    rcases h1 : dist_get tbl (a, b) with _ | d1 <;>
      rcases h2 : dist_get tbl (b, a) with _ | d2 <;>
        rw [h1, h2] at h <;> simp_all
  refine ⟨?_, rfl⟩
  unfold calculate_price
  cases class_get classes "economy" <;> simp [key]

/-- Witness for C8: on a one-entry economy table with the pair (A, B) stored
in one direction at 100 km, the price of A → B equals the price of B → A,
concretely (1050, 100). -/
theorem calculate_price_symm_det_witness :
    undirected_at witnessDistances "A" "B" = true ∧
    calculate_price witnessDistances witnessClasses "A" "B" "economy" =
      calculate_price witnessDistances witnessClasses "B" "A" "economy" ∧
    calculate_price witnessDistances witnessClasses "A" "B" "economy" = (1050, 100) :=
  ⟨by decide,
   (calculate_price_symm_det witnessDistances witnessClasses "A" "B" "economy" (by decide)).1,
   by decide⟩

/-- C10, counterexample to the claim as stated: for non-party user 99, two
runs differing only in the stored encrypted phone ("" versus "abc") produce
different outputs — an absent phone yields the "not specified" message, not
the fixed hidden message, so the non-party output does depend on the stored
value (it reveals whether a phone is on file). -/
theorem phone_display_leaks_presence :
    format_phone_for_display (fun s => s) (some phoneTrip) "" 99 ≠
    format_phone_for_display (fun s => s) (some phoneTrip) "abc" 99 := by
  decide

/-- C10 as amended: for every requester who is neither the trip's passenger
nor its bound driver, a non-empty stored phone always yields the one fixed
hidden message — independent of the stored value and of the decryption
function — and an empty stored phone always yields the fixed "not
specified" message; so a non-party learns at most whether a phone is on
file, never the number. -/
theorem phone_display_hidden_for_non_party (decrypt : String → String)
    (t : Trip) (user_id : Nat) (encrypted : String)
    (hparty : ¬ (user_id = t.passenger_id ∨ some user_id = t.driver_id)) :
    (encrypted ≠ "" →
      format_phone_for_display decrypt (some t) encrypted user_id =
        "🔒 Скрыт (доступен после подтверждения)") ∧
    format_phone_for_display decrypt (some t) "" user_id = "❌ Не указан" := by
  constructor
  · intro he
    simp [format_phone_for_display, he, hparty]
  · simp [format_phone_for_display]

/-- Witness for C10's amended theorem: non-party user 99 sees the fixed
hidden message for the stored phone "xyz" and the fixed "not specified"
message when no phone is stored. -/
theorem phone_display_hidden_for_non_party_witness :
    format_phone_for_display (fun s => s) (some phoneTrip) "xyz" 99 =
      "🔒 Скрыт (доступен после подтверждения)" ∧
    format_phone_for_display (fun s => s) (some phoneTrip) "" 99 = "❌ Не указан" :=
  ⟨(phone_display_hidden_for_non_party (fun s => s) phoneTrip 99 "xyz" (by decide)).1 (by decide),
   (phone_display_hidden_for_non_party (fun s => s) phoneTrip 99 "xyz" (by decide)).2⟩

end TransportBot
